import Mathlib

/-!
Verification of `nwisretrieval` (NWIS time-series retrieval library).

Shallow embedding of `src/nwisretrieval/nwisretrieval.py` (the main variant:
`NWISFrame` subclassing `pd.DataFrame`) and of the `qualifier` accessor of
`src/nwisretrieval/nwisretrieval2.py`.

Modelling conventions:
  * timestamps are integers (ticks of an arbitrary base unit, e.g. minutes);
  * a pandas frequency string such as `"15min"` or `"D"` is modelled by its
    step width in those ticks, a natural number;
  * float `NaN` is modelled by `Option.none`; the `value` column holds
    `Option ℚ` (all comparisons performed by the source on values are exact
    equality tests against `-999999.0`, which is exactly representable);
  * a row's `qualifiers` cell holds `Option (List String)`: `none` models a
    null/NaN cell (such as the cells produced by `reindex`), `some qs` a list
    of qualifier codes.  Python's `frozenset(qs)` membership tests coincide
    with list membership, which is what the embedding uses;
  * the `sentinel.create("Unknown")` object, Python `None`, strings, numbers
    and pairs stored in the `_metadict` dictionary are modelled by the
    inductive `PyVal`;
  * Python exceptions that the relevant code paths can raise are modelled by
    `Except`/branching: `pd.date_range` called with a non-string frequency
    (the Unknown sentinel) or an unparseable date raises `ValueError` (resp.
    a `DateParseError` subclass of it), which `fill_gaps` catches;
    `build_url`'s dictionary lookup raises `KeyError` for an unknown service.
-/

/-- A Python value as stored in the `_metadict` metadata dictionary of
`NWISFrame` (`nwisretrieval.py` lines 55-66, 348-407): the
`sentinel.create("Unknown")` object, Python `None`, strings, booleans,
numbers (dates are modelled as integer timestamps) and pairs (coordinates). -/
inductive PyVal where
  | unknown : PyVal
  | pynone : PyVal
  | str : String → PyVal
  | bool : Bool → PyVal
  | int : ℤ → PyVal
  | pair : PyVal → PyVal → PyVal
deriving DecidableEq, Repr

/-- The `_gap_tolerance` entry of the metadata dictionary: Python `None`, the
Unknown sentinel, or a frequency string (modelled by its step width in ticks,
e.g. `"15min"` ↦ 15 when a tick is a minute). -/
inductive GapTol where
  | pynone : GapTol
  | unknown : GapTol
  | step : ℕ → GapTol
deriving DecidableEq, Repr

/-- One observation row of the frame: the `value` column (`none` = NaN) and
the `qualifiers` column (`none` = null cell, `some qs` = list of codes). -/
structure Row where
  value : Option ℚ
  qualifiers : Option (List String)
deriving DecidableEq, Repr

/-- The row inserted for a previously missing timestamp by
`reindex` + `fillna` in `fill_gaps`: NaN value, null qualifiers. -/
def emptyRow : Row := { value := none, qualifiers := none }

/-- The `_metadict` metadata dictionary built by `create_metadict`
(`nwisretrieval.py` lines 348-407), with one field per key.  The
`_gap_tolerance` entry gets the dedicated type `GapTol` because the gap
functions inspect it; every other entry is an opaque `PyVal`. -/
structure Metadict where
  staid : PyVal
  start_date : PyVal
  end_date : PyVal
  param : PyVal
  stat_code : PyVal
  service : PyVal
  access_level : PyVal
  url : PyVal
  gap_tolerance : GapTol
  gap_fill : PyVal
  resolve_masking : PyVal
  approval : PyVal
  site_name : PyVal
  coords : PyVal
  var_description : PyVal
deriving DecidableEq, Repr

/-- Embedding of `create_metadict()` with no keyword arguments: every entry defaults to the
Unknown sentinel (`nwisretrieval.py` lines 380-395; the three `rdata` entries
are likewise absent/Unknown when no response data is supplied). -/
def defaultMetadict : Metadict :=
  { staid := .unknown, start_date := .unknown, end_date := .unknown
    param := .unknown, stat_code := .unknown, service := .unknown
    access_level := .unknown, url := .unknown, gap_tolerance := .unknown
    gap_fill := .unknown, resolve_masking := .unknown, approval := .unknown
    site_name := .unknown, coords := .unknown, var_description := .unknown }

/-- The `NWISFrame` result container (`nwisretrieval.py` lines 12-72): a
timestamp-indexed row table together with the `_metadict` metadata record.
The `_metadata = ["_metadict"]` registration plus the `_constructor`
override make pandas propagate `_metadict` to every derived frame
(slices, reindexes, copies); the embedding realises that by every operation
carrying `metadict` over explicitly. -/
structure NWISFrame where
  data : List (ℤ × Row)
  metadict : Metadict
deriving DecidableEq, Repr

namespace NWISFrame

/-- The `DatetimeIndex` of the frame. -/
def keys (f : NWISFrame) : List ℤ := f.data.map Prod.fst

/-- Boolean test used by `check_quals` on a qualifier frozenset:
`"Ice" in qual or "i" in qual` (`nwisretrieval.py` line 150). -/
def hasIceQual (q : List String) : Bool := decide ("Ice" ∈ q ∨ "i" ∈ q)

/-- Boolean test used by `check_approval` on a qualifier frozenset:
`"P" in approval` (`nwisretrieval.py` line 282). -/
def hasProvQual (q : List String) : Bool := decide ("P" ∈ q)

/-- Embedding of `mask = ~self["qualifiers"].isnull();
list(pd.unique(self["qualifiers"][mask].apply(frozenset)))`
(`nwisretrieval.py` lines 147-148 and 279-280): the qualifier sets of the
rows whose qualifiers cell is non-null, deduplicated. -/
def uniqueQuals (f : NWISFrame) : List (List String) :=
  ((f.data.filterMap fun p => p.2.qualifiers)).dedup

/-- Embedding of `NWISFrame.check_quals` (`nwisretrieval.py` lines 130-152): returns the
string `"Ice"` if any non-null qualifier set contains `"Ice"` or `"i"`,
otherwise the Unknown sentinel (`return self.Unknown`, line 152). -/
def check_quals (f : NWISFrame) : PyVal :=
  if (uniqueQuals f).any hasIceQual then .str "Ice" else .unknown

/-- Embedding of `NWISFrame.check_approval` (`nwisretrieval.py` lines 263-286), return
value: `"Provisional"` if any non-null qualifier set contains `"P"`, else
`"Approved"` (the `next(... if "P" in approval, "Approved")` reduction). -/
def check_approval (f : NWISFrame) : String :=
  if (uniqueQuals f).any hasProvQual then "Provisional" else "Approved"

/-- The source `check_approval` also caches its result into the metadata
dictionary (`self._metadict["_approval"] = approval_level`, line 285):
the post-state of the frame. -/
def check_approval_post (f : NWISFrame) : NWISFrame :=
  { f with metadict := { f.metadict with approval := .str (check_approval f) } }

end NWISFrame

/-- Embedding of `NWISFrame.qualifier` of the accessor variant
(`nwisretrieval2.py` lines 53-59): same any-match reduction over the
(non-null, there unmasked) qualifier sets, but the no-ice result is the
string `"None"`. -/
def qualifier2 (quals : List (List String)) : String :=
  if quals.dedup.any NWISFrame.hasIceQual then "Ice" else "None"

/-- Embedding of `pd.date_range(start, stop, freq=step)`: the full expected calendar
sequence `start, start+step, ...` of timestamps `≤ stop` (empty when
`stop < start`; a frequency step of 0 never arises from a frequency
string, the guard only keeps the definition total). -/
def dateRange (start stop : ℤ) (step : ℕ) : List ℤ :=
  if step = 0 ∨ stop < start then []
  else (List.range ((stop - start).toNat / step + 1)).map fun k => start + k * step

namespace NWISFrame

/-- Embedding of `NWISFrame._resolve_gaptolerance` (`nwisretrieval.py` lines 306-317):
an explicit argument wins; with no argument fall back on the stored
`_gap_tolerance`, degrading Python `None` to the Unknown sentinel. -/
def resolve_gaptolerance (stored : GapTol) (gap_tol : Option ℕ) : GapTol :=
  match gap_tol with
  | some t => .step t
  | none => if stored = .pynone then .unknown else stored

/-- Embedding of `NWISFrame.gap_index` (`nwisretrieval.py` lines 211-229):
`pd.date_range(self.start_date, self.end_date, freq=gap_tol).difference(self.index)`.
`none` models the `ValueError`/`DateParseError` that `pd.date_range` raises
when the resolved tolerance is the Unknown sentinel (an invalid frequency)
or the recorded start/end date is not a date. -/
def gap_index (f : NWISFrame) (gap_tol : Option ℕ) : Option (List ℤ) :=
  match resolve_gaptolerance f.metadict.gap_tolerance gap_tol,
        f.metadict.start_date, f.metadict.end_date with
  | .step n, .int s, .int e =>
      some ((dateRange s e n).filter fun t => decide (t ∉ f.keys))
  | _, _, _ => none

/-- The three-valued result of `check_gaps`, plus the uncaught-exception
outcome (`check_gaps` has no `try`, so a `ValueError` from `pd.date_range`
propagates): `unknown` is the `NWISFrame.Unknown` sentinel return. -/
inductive GapCheck where
  | unknown : GapCheck
  | yes : GapCheck
  | no : GapCheck
  | err : GapCheck
deriving DecidableEq, Repr

/-- Embedding of `NWISFrame.check_gaps` (`nwisretrieval.py` lines 154-209) with
whether it emitted a `warnings.warn`:
resolve the tolerance; on the Unknown sentinel warn and return it; otherwise
compute `gap_index`; empty ⇒ `False`; non-empty with a requested sub-window
`[start_date, end_date]` ⇒ test the label-sliced gap index for emptiness;
non-empty ⇒ warn and return `True`. -/
def check_gaps_full (f : NWISFrame) (gap_tol : Option ℕ)
    (window : Option (ℤ × ℤ)) : GapCheck × Bool :=
  match resolve_gaptolerance f.metadict.gap_tolerance gap_tol with
  | .unknown => (.unknown, true)
  | .step n =>
      match f.gap_index (some n) with
      | some gi =>
          if gi.isEmpty then (.no, false)
          else
            match window with
            | some (a, b) =>
                if (gi.filter fun t => decide (a ≤ t ∧ t ≤ b)).isEmpty
                then (.no, false)
                else (.yes, true)
            | none => (.yes, true)
      | none => (.err, false)
  -- unreachable: `resolve_gaptolerance` never returns Python None
  | .pynone => (.err, false)

/-- Return value of `check_gaps`. -/
def check_gaps (f : NWISFrame) (gap_tol : Option ℕ)
    (window : Option (ℤ × ℤ)) : GapCheck :=
  (check_gaps_full f gap_tol window).1

/-- Embedding of `self.reindex(new_index)`: one row per new label, keeping the existing
row for a label already present (the index is unique wherever `reindex`
succeeds) and an all-NaN row for a new label.  The subsequent
`.fillna(float("NaN"))` of `fill_gaps` replaces NaN by NaN, a no-op. -/
def reindexData (f : NWISFrame) (idx : List ℤ) : List (ℤ × Row) :=
  idx.map fun t =>
    (t, ((f.data.find? fun p => decide (p.1 = t)).map Prod.snd).getD emptyRow)

/-- Embedding of `NWISFrame.fill_gaps` (`nwisretrieval.py` lines 231-261) with
whether it warned: resolve the tolerance, reindex onto the full expected
sequence and record the tolerance used into `_gap_tolerance`; any
`ValueError` inside the `try` (invalid frequency: the Unknown sentinel;
unparseable recorded dates; duplicate index labels in `reindex`) is caught,
a warning is emitted and the input frame is returned unchanged. -/
def fill_gaps_full (f : NWISFrame) (gap_tol : Option ℕ) : NWISFrame × Bool :=
  match resolve_gaptolerance f.metadict.gap_tolerance gap_tol with
  | .step n =>
      match f.metadict.start_date, f.metadict.end_date with
      | .int s, .int e =>
          if f.keys.Nodup then
            ({ data := reindexData f (dateRange s e n),
               metadict := { f.metadict with gap_tolerance := .step n } },
             false)
          else (f, true)
      | _, _ => (f, true)
  | _ => (f, true)

/-- Return value of `fill_gaps`. -/
def fill_gaps (f : NWISFrame) (gap_tol : Option ℕ) : NWISFrame :=
  (fill_gaps_full f gap_tol).1

/-- Whether `fill_gaps` warned. -/
def fill_gaps_warned (f : NWISFrame) (gap_tol : Option ℕ) : Bool :=
  (fill_gaps_full f gap_tol).2

/-- The replaced-value sentinel of `resolve_masks`: `-999999.0`. -/
def maskValue : ℚ := -999999

/-- Row-level effect of `NWISFrame.resolve_masks` (`nwisretrieval.py` lines
288-304): `self["value"].where(self["value"] != -999999.0, np.NaN)` — a
value equal to `-999999.0` becomes NaN, anything else (NaN included, since
`NaN != -999999.0` holds elementwise) is kept; qualifiers untouched. -/
def resolve_masks_row (r : Row) : Row :=
  { r with value := if r.value = some maskValue then none else r.value }

/-- Embedding of `NWISFrame.resolve_masks` on the whole frame. -/
def resolve_masks (f : NWISFrame) : NWISFrame :=
  { f with data := f.data.map fun p => (p.1, resolve_masks_row p.2) }

/-- A label slice `frame[lo:hi]` of the row table: pandas `__finalize__`
propagates the registered `_metadict` to the sliced frame. -/
def sliceFrame (f : NWISFrame) (lo hi : ℤ) : NWISFrame :=
  { data := f.data.filter fun p => decide (lo ≤ p.1 ∧ p.1 ≤ hi),
    metadict := f.metadict }

/-- Embedding of `copy.deepcopy`/`DataFrame.copy` of the frame: `_metadict` is propagated
(`nwisretrieval.py` lines 55-56). -/
def copyFrame (f : NWISFrame) : NWISFrame :=
  { data := f.data, metadict := f.metadict }

end NWISFrame

/-- Python exception classes raised by the code paths under study:
the builtin `KeyError` (with its key), the builtin `ValueError`, and
`SystemExit` (raised by `query_url` on a non-200 status and by `get_nwis`
on an empty result). -/
inductive PyErr where
  | keyError : String → PyErr
  | valueError : PyErr
  | systemExit : PyErr
deriving DecidableEq, Repr

/-- The non-service query parameters of `build_url`. -/
structure QueryParams where
  staid : String
  start_date : String
  end_date : String
  param : String
  stat_code : String
  access : String
deriving DecidableEq, Repr

/-- The `"dv"` entry of the `service_urls` dictionary
(`nwisretrieval.py` line 490). -/
def dv_url (p : QueryParams) : String :=
  "https://nwis.waterservices.usgs.gov/nwis/dv/?format=json&sites=" ++ p.staid
    ++ "&startDT=" ++ p.start_date ++ "&endDT=" ++ p.end_date
    ++ "&statCd=" ++ p.stat_code ++ "&parameterCd=" ++ p.param
    ++ "&siteStatus=all&access=" ++ p.access

/-- The `"iv"` entry of the `service_urls` dictionary
(`nwisretrieval.py` line 491). -/
def iv_url (p : QueryParams) : String :=
  "https://nwis.waterservices.usgs.gov/nwis/iv/?format=json&sites=" ++ p.staid
    ++ "&parameterCd=" ++ p.param ++ "&startDT=" ++ p.start_date
    ++ "&endDT=" ++ p.end_date ++ "&siteStatus=all&access=" ++ p.access

/-- Embedding of `build_url` (`nwisretrieval.py` lines 456-493): `service_urls[service]`,
a dictionary lookup over the two keys `"dv"` and `"iv"`; any other service
raises the builtin `KeyError` carrying the missing key.  No
`InvalidServiceError` (or any other custom exception class) is defined
anywhere in the repository. -/
def build_url (p : QueryParams) (service : String) : Except PyErr String :=
  if service = "dv" then .ok (dv_url p)
  else if service = "iv" then .ok (iv_url p)
  else .error (.keyError service)

/-- The `get_nwis` pipeline prefix (`nwisretrieval.py` lines 550-592):
`build_url`, then the network fetch (`query_url` + `.json()`, abstracted as
`fetch`), then all remaining processing (abstracted as `rest`).  Both
abstractions may themselves fail with any modelled exception. -/
def get_nwis_run {α β : Type} (fetch : String → Except PyErr α)
    (rest : α → Except PyErr β) (p : QueryParams) (service : String) :
    Except PyErr β := do
  let url ← build_url p service
  let resp ← fetch url
  rest resp

section Helpers

open NWISFrame

/-- Membership in the deduplicated non-null qualifier sets. -/
lemma mem_uniqueQuals {f : NWISFrame} {q : List String} :
    q ∈ uniqueQuals f ↔ ∃ p ∈ f.data, p.2.qualifiers = some q := by
  simp [uniqueQuals, List.mem_dedup, List.mem_filterMap]

/-- The any-match reduction of `check_quals`/`qualifier`, characterised. -/
lemma any_ice_iff {f : NWISFrame} :
    (uniqueQuals f).any hasIceQual = true ↔
      ∃ p ∈ f.data, ∃ q, p.2.qualifiers = some q ∧ ("Ice" ∈ q ∨ "i" ∈ q) := by
  rw [List.any_eq_true]
  constructor
  · rintro ⟨q, hq, hice⟩
    rcases mem_uniqueQuals.mp hq with ⟨p, hp, hpq⟩
    exact ⟨p, hp, q, hpq, of_decide_eq_true hice⟩
  · rintro ⟨p, hp, q, hpq, hice⟩
    exact ⟨q, mem_uniqueQuals.mpr ⟨p, hp, hpq⟩, decide_eq_true hice⟩

/-- The any-match reduction of `check_approval`, characterised. -/
lemma any_prov_iff {f : NWISFrame} :
    (uniqueQuals f).any hasProvQual = true ↔
      ∃ p ∈ f.data, ∃ q, p.2.qualifiers = some q ∧ "P" ∈ q := by
  rw [List.any_eq_true]
  constructor
  · rintro ⟨q, hq, hprov⟩
    rcases mem_uniqueQuals.mp hq with ⟨p, hp, hpq⟩
    exact ⟨p, hp, q, hpq, of_decide_eq_true hprov⟩
  · rintro ⟨p, hp, q, hpq, hprov⟩
    exact ⟨q, mem_uniqueQuals.mpr ⟨p, hp, hpq⟩, decide_eq_true hprov⟩

/-- The function `_resolve_gaptolerance` never produces Python `None`: `None` arguments
fall back on the stored tolerance and a stored `None` degrades to the
Unknown sentinel. -/
lemma resolve_gaptolerance_ne_pynone (stored : GapTol) (gap_tol : Option ℕ) :
    resolve_gaptolerance stored gap_tol ≠ .pynone := by
  cases gap_tol with
  | some t => simp [resolve_gaptolerance]
  | none =>
      cases stored with
      | pynone => simp [resolve_gaptolerance]
      | unknown => simp [resolve_gaptolerance]
      | step n => simp [resolve_gaptolerance]

/-- On a frame with a duplicate-free index, `find?` locates exactly the
stored row of a present label. -/
lemma find_eq_of_mem {l : List (ℤ × Row)} (hnd : (l.map Prod.fst).Nodup)
    {t : ℤ} {r : Row} (h : (t, r) ∈ l) :
    (l.find? fun p => decide (p.1 = t)) = some (t, r) := by
  induction l with
  | nil => cases h
  | cons a l ih =>
      rw [List.map_cons, List.nodup_cons] at hnd
      by_cases ha : a.1 = t
      · have hal : a = (t, r) := by
          rcases List.mem_cons.mp h with h1 | h1
          · exact h1.symm
          · exact absurd (ha ▸ (List.mem_map.mpr ⟨(t, r), h1, rfl⟩)) hnd.1
        rw [List.find?_cons, hal]
        simp
      · rw [List.find?_cons]
        have : (decide (a.1 = t)) = false := decide_eq_false ha
        rw [this]
        have hl : (t, r) ∈ l := by
          rcases List.mem_cons.mp h with h1 | h1
          · exact absurd (congrArg Prod.fst h1.symm) ha
          · exact h1
        exact ih hnd.2 hl

/-- Lookup via `find?` misses an absent label. -/
lemma find_eq_none_of_not_mem {l : List (ℤ × Row)} {t : ℤ}
    (h : t ∉ l.map Prod.fst) :
    (l.find? fun p => decide (p.1 = t)) = none := by
  rw [List.find?_eq_none]
  intro p hp
  simp only [decide_eq_true_eq]
  intro hpt
  exact h (List.mem_map.mpr ⟨p, hp, hpt⟩)

end Helpers

/-- Example metadata record with distinctive (non-default) entries, recorded
dates 0..2 and a configured one-tick gap tolerance.  Mirrors the dummy
station fixtures of `tests/test_nwisretrieval.py`. -/
def exMeta : Metadict :=
  { staid := .str "12301933", start_date := .int 0, end_date := .int 2
    param := .str "63680", stat_code := .str "00003", service := .str "iv"
    access_level := .int 0, url := .str "url", gap_tolerance := .step 1
    gap_fill := .bool false, resolve_masking := .bool false
    approval := .unknown, site_name := .str "Libby Dam dummy site"
    coords := .pair (.int 1234) (.int 1234), var_description := .str "Var description" }

/-- Example frame mirroring the `dummy_station_ice_provisional_15min_nogap`
fixture: three rows, one clean value and two ice-masked ones. -/
def exFrameA : NWISFrame :=
  { data :=
      [(0, { value := some 2, qualifiers := some ["P"] }),
       (1, { value := some NWISFrame.maskValue, qualifiers := some ["P", "Ice"] }),
       (2, { value := some NWISFrame.maskValue, qualifiers := some ["P", "Ice"] })],
    metadict := exMeta }

/-- Example frame with provisional qualifiers but no ice qualifier. -/
def exNoIce : NWISFrame :=
  { data := [(0, { value := some 2, qualifiers := some ["P"] })],
    metadict := exMeta }

open NWISFrame

/-- C2: for every row set with qualifier sets, the computed approval level is
`"Provisional"` if and only if at least one row's (non-null) qualifier set
contains `"P"`, and otherwise it is `"Approved"` (any-match reduction). -/
theorem claim_C2_check_approval (f : NWISFrame) :
    (check_approval f = "Provisional" ↔
      ∃ p ∈ f.data, ∃ q, p.2.qualifiers = some q ∧ "P" ∈ q) ∧
    (check_approval f = "Approved" ↔
      ¬ ∃ p ∈ f.data, ∃ q, p.2.qualifiers = some q ∧ "P" ∈ q) := by
  unfold check_approval
  by_cases h : (uniqueQuals f).any hasProvQual = true
  · rw [if_pos h]
    refine ⟨⟨fun _ => any_prov_iff.mp h, fun _ => rfl⟩, ?_, ?_⟩
    · intro hcon; exact absurd hcon (by decide)
    · intro hne; exact absurd (any_prov_iff.mp h) hne
  · rw [if_neg h]
    refine ⟨⟨fun hcon => absurd hcon (by decide), ?_⟩,
            fun _ => (fun hex => h (any_prov_iff.mpr hex)), fun _ => rfl⟩
    intro hex; exact absurd (any_prov_iff.mpr hex) h

/-- C3 counterexample: on a row set with no ice qualifier, `check_quals` of
`nwisretrieval.py` returns the Unknown sentinel, which is not the string
`"None"` that the claim states. -/
theorem claim_C3_counterexample :
    check_quals exNoIce = PyVal.unknown ∧ PyVal.unknown ≠ PyVal.str "None" := by
  exact ⟨by decide, by decide⟩

/-- C3 (amended): the computed qualifier/ice flag is `"Ice"` iff at least one
row's (non-null) qualifier set contains `"Ice"` or `"i"`; otherwise
`check_quals` (`nwisretrieval.py`) returns the Unknown sentinel, while the
`qualifier` accessor (`nwisretrieval2.py`) returns the string `"None"`. -/
theorem claim_C3_amended (f : NWISFrame) (quals : List (List String)) :
    (check_quals f = .str "Ice" ↔
      ∃ p ∈ f.data, ∃ q, p.2.qualifiers = some q ∧ ("Ice" ∈ q ∨ "i" ∈ q)) ∧
    (check_quals f = .unknown ↔
      ¬ ∃ p ∈ f.data, ∃ q, p.2.qualifiers = some q ∧ ("Ice" ∈ q ∨ "i" ∈ q)) ∧
    (qualifier2 quals = "Ice" ↔ ∃ q ∈ quals, "Ice" ∈ q ∨ "i" ∈ q) ∧
    (qualifier2 quals = "None" ↔ ¬ ∃ q ∈ quals, "Ice" ∈ q ∨ "i" ∈ q) := by
  have hq2 : quals.dedup.any hasIceQual = true ↔ ∃ q ∈ quals, "Ice" ∈ q ∨ "i" ∈ q := by
    rw [List.any_eq_true]
    constructor
    · rintro ⟨q, hq, hice⟩
      exact ⟨q, List.mem_dedup.mp hq, of_decide_eq_true hice⟩
    · rintro ⟨q, hq, hice⟩
      exact ⟨q, List.mem_dedup.mpr hq, decide_eq_true hice⟩
  constructor
  · unfold check_quals
    by_cases h : (uniqueQuals f).any hasIceQual = true
    · rw [if_pos h]
      exact ⟨fun _ => any_ice_iff.mp h, fun _ => rfl⟩
    · rw [if_neg h]
      exact ⟨fun hcon => absurd hcon (by decide),
             fun hex => absurd (any_ice_iff.mpr hex) h⟩
  constructor
  · unfold check_quals
    by_cases h : (uniqueQuals f).any hasIceQual = true
    · rw [if_pos h]
      exact ⟨fun hcon => absurd hcon (by decide),
             fun hne => absurd (any_ice_iff.mp h) hne⟩
    · rw [if_neg h]
      exact ⟨fun _ => (fun hex => h (any_ice_iff.mpr hex)), fun _ => rfl⟩
  constructor
  · unfold qualifier2
    by_cases h : quals.dedup.any hasIceQual = true
    · rw [if_pos h]
      exact ⟨fun _ => hq2.mp h, fun _ => rfl⟩
    · rw [if_neg h]
      exact ⟨fun hcon => absurd hcon (by decide),
             fun hex => absurd (hq2.mpr hex) h⟩
  · unfold qualifier2
    by_cases h : quals.dedup.any hasIceQual = true
    · rw [if_pos h]
      exact ⟨fun hcon => absurd hcon (by decide),
             fun hne => absurd (hq2.mp h) hne⟩
    · rw [if_neg h]
      exact ⟨fun _ => (fun hex => h (hq2.mpr hex)), fun _ => rfl⟩

/-- C10: `check_quals` and `check_approval` filter out rows whose qualifiers
cell is null before the any-match reduction, so appending rows with null
qualifiers (such as the rows inserted by `fill_gaps`) never changes the
computed approval level or ice flag. -/
theorem claim_C10_null_quals_ignored (f : NWISFrame) (extra : List (ℤ × Row))
    (hextra : ∀ p ∈ extra, p.2.qualifiers = none) :
    check_approval { f with data := f.data ++ extra } = check_approval f ∧
    check_quals { f with data := f.data ++ extra } = check_quals f := by
  have hq : uniqueQuals { f with data := f.data ++ extra } = uniqueQuals f := by
    unfold uniqueQuals
    simp only
    rw [List.filterMap_append]
    have hnil : (extra.filterMap fun p => p.2.qualifiers) = [] :=
      List.filterMap_eq_nil_iff.mpr hextra
    rw [hnil, List.append_nil]
  constructor
  · unfold check_approval; rw [hq]
  · unfold check_quals; rw [hq]

/-- C10 witness: appending one null-qualifier row to the example frame
changes neither flag. -/
theorem claim_C10_witness :
    check_approval { exFrameA with data := exFrameA.data ++ [(5, emptyRow)] } =
      check_approval exFrameA ∧
    check_quals { exFrameA with data := exFrameA.data ++ [(5, emptyRow)] } =
      check_quals exFrameA :=
  claim_C10_null_quals_ignored exFrameA [(5, emptyRow)] (by decide)

/-- Row-level idempotence of `resolve_masks`: a replaced value is NaN, not
`-999999.0`, so the second pass leaves it alone. -/
lemma resolve_masks_row_idem (r : Row) :
    resolve_masks_row (resolve_masks_row r) = resolve_masks_row r := by
  unfold resolve_masks_row
  rcases r with ⟨v, q⟩
  by_cases h : v = some maskValue <;> simp [h]

/-- C4: `resolve_masks` maps every value equal to `-999999.0` to the missing
marker, leaves all other values, all qualifiers, the index and the metadata
unchanged, and is idempotent. -/
theorem claim_C4_resolve_masks (f : NWISFrame) :
    resolve_masks (resolve_masks f) = resolve_masks f ∧
    (resolve_masks f).keys = f.keys ∧
    (resolve_masks f).data.map (fun p => p.2.qualifiers) =
      f.data.map (fun p => p.2.qualifiers) ∧
    (resolve_masks f).metadict = f.metadict ∧
    (∀ t r, (t, r) ∈ f.data → r.value = some maskValue →
        (t, { r with value := none }) ∈ (resolve_masks f).data) ∧
    (∀ t r, (t, r) ∈ f.data → r.value ≠ some maskValue →
        (t, r) ∈ (resolve_masks f).data) := by
  refine ⟨?_, ?_, ?_, rfl, ?_, ?_⟩
  · unfold resolve_masks
    simp only [List.map_map]
    have hg : ((fun p : ℤ × Row => (p.1, resolve_masks_row p.2)) ∘
        fun p : ℤ × Row => (p.1, resolve_masks_row p.2)) =
        fun p : ℤ × Row => (p.1, resolve_masks_row p.2) := by
      funext p
      simp [Function.comp, resolve_masks_row_idem]
    rw [hg]
  · unfold resolve_masks keys
    simp [List.map_map, Function.comp]
  · unfold resolve_masks
    simp only [List.map_map]
    congr 1
  · intro t r hmem hval
    unfold resolve_masks
    refine List.mem_map.mpr ⟨(t, r), hmem, ?_⟩
    simp [resolve_masks_row, hval]
  · intro t r hmem hval
    unfold resolve_masks
    refine List.mem_map.mpr ⟨(t, r), hmem, ?_⟩
    simp [resolve_masks_row, if_neg hval]

/-- C4 witness: on the example frame, the clean value 2 survives and a masked
`-999999.0` becomes missing; the index is unchanged. -/
theorem claim_C4_witness :
    (resolve_masks (resolve_masks exFrameA) = resolve_masks exFrameA) ∧
    (resolve_masks exFrameA).keys = exFrameA.keys ∧
    ((0 : ℤ), ({ value := some 2, qualifiers := some ["P"] } : Row)) ∈
      (resolve_masks exFrameA).data ∧
    ((1 : ℤ), ({ value := none, qualifiers := some ["P", "Ice"] } : Row)) ∈
      (resolve_masks exFrameA).data :=
  ⟨(claim_C4_resolve_masks exFrameA).1,
   (claim_C4_resolve_masks exFrameA).2.1,
   (claim_C4_resolve_masks exFrameA).2.2.2.2.2 0
     { value := some 2, qualifiers := some ["P"] } (by decide) (by decide),
   (claim_C4_resolve_masks exFrameA).2.2.2.2.1 1
     { value := some maskValue, qualifiers := some ["P", "Ice"] } (by decide) (by decide)⟩

/-- Example frame whose index is a strict superset of the expected daily
sequence over its recorded date range 0..2 (an extra observation at tick 3,
e.g. a sub-daily reading checked at a coarser tolerance). -/
def exSuper : NWISFrame :=
  { data :=
      [(0, { value := some 3, qualifiers := some ["P"] }),
       (1, { value := some 4, qualifiers := some ["P"] }),
       (2, { value := some 5, qualifiers := some ["P"] }),
       (3, { value := some 6, qualifiers := some ["P"] })],
    metadict := exMeta }

/-- Example frame with a gap: rows at ticks 0 and 2 only, range 0..2. -/
def exGap : NWISFrame :=
  { data :=
      [(0, { value := some 3, qualifiers := some ["P"] }),
       (2, { value := some 5, qualifiers := some ["P", "Ice"] })],
    metadict := exMeta }

/-- Example frame with a row off the step-2 grid: rows at ticks 0 and 1,
range 0..2. -/
def exOffGrid : NWISFrame :=
  { data :=
      [(0, { value := some 3, qualifiers := some ["P"] }),
       (1, { value := some 7, qualifiers := some ["P"] })],
    metadict := exMeta }

/-- Example frame with no gap tolerance ever configured (`gap_tol=None`,
as stored by `get_nwis` when the caller omits it). -/
def exNoTol : NWISFrame :=
  { data := exFrameA.data,
    metadict := { exMeta with gap_tolerance := .pynone } }

/-- C5 counterexample: a frame whose timestamp set strictly contains the full
expected sequence (an extra tick 3 beyond recorded range 0..2) has an empty
`gap_index` at tolerance 1, yet its timestamp set does not equal the
expected sequence — emptiness only certifies inclusion, not equality. -/
theorem claim_C5_counterexample :
    gap_index exSuper (some 1) = some [] ∧
    (3 : ℤ) ∈ exSuper.keys ∧ (3 : ℤ) ∉ dateRange 0 2 1 := by
  exact ⟨by decide, by decide, by decide⟩

/-- C5 (amended): for every series with recorded start and end dates and
every tolerance, `gap_index` is the expected calendar sequence minus the
actual timestamps, and it is empty iff every expected timestamp occurs in
the series — i.e. iff the expected sequence is contained in the actual
timestamp set (not: equals it). -/
theorem claim_C5_amended (f : NWISFrame) (n : ℕ) (s e : ℤ)
    (hs : f.metadict.start_date = .int s) (he : f.metadict.end_date = .int e) :
    gap_index f (some n) =
      some ((dateRange s e n).filter fun t => decide (t ∉ f.keys)) ∧
    (gap_index f (some n) = some [] ↔ ∀ t ∈ dateRange s e n, t ∈ f.keys) := by
  have h1 : gap_index f (some n) =
      some ((dateRange s e n).filter fun t => decide (t ∉ f.keys)) := by
    unfold gap_index
    rw [show resolve_gaptolerance f.metadict.gap_tolerance (some n) = .step n
          from rfl, hs, he]
  refine ⟨h1, ?_⟩
  rw [h1, Option.some_inj, List.filter_eq_nil_iff]
  constructor
  · intro h t ht
    have := h t ht
    simpa using this
  · intro h t ht
    simpa using h t ht

/-- C5 witness: the example frame `exFrameA` covers its range, so its gap
index at tolerance 1 is the (empty) filtered expected sequence. -/
theorem claim_C5_witness :
    gap_index exFrameA (some 1) =
      some ((dateRange 0 2 1).filter fun t => decide (t ∉ exFrameA.keys)) ∧
    (gap_index exFrameA (some 1) = some [] ↔
      ∀ t ∈ dateRange 0 2 1, t ∈ exFrameA.keys) :=
  claim_C5_amended exFrameA 1 0 2 (by decide) (by decide)

/-- On a frame with recorded dates and a duplicate-free index, `fill_gaps`
with an explicit tolerance takes its reindex branch. -/
lemma fill_gaps_step_eq (f : NWISFrame) (n : ℕ) (s e : ℤ)
    (hs : f.metadict.start_date = .int s) (he : f.metadict.end_date = .int e)
    (hnd : f.keys.Nodup) :
    fill_gaps f (some n) =
      { data := reindexData f (dateRange s e n),
        metadict := { f.metadict with gap_tolerance := .step n } } := by
  unfold fill_gaps fill_gaps_full
  rw [show resolve_gaptolerance f.metadict.gap_tolerance (some n) = .step n
        from rfl, hs, he]
  simp [hnd]

/-- C6 counterexample: on a frame with a row at tick 1, off the step-2
expected grid over range 0..2, `fill_gaps` drops that pre-existing row
(its timestamp is absent from the result), so not every pre-existing row
keeps its value and qualifiers. -/
theorem claim_C6_counterexample :
    (1 : ℤ) ∈ exOffGrid.keys ∧
    (1 : ℤ) ∉ (fill_gaps exOffGrid (some 2)).keys := by
  exact ⟨by decide, by decide⟩

/-- C6 (amended): for every series with recorded dates, duplicate-free index
and tolerance, `fill_gaps` returns a series whose index exactly equals the
full expected calendar sequence; every pre-existing row whose timestamp lies
on that sequence keeps its original value and qualifiers (rows off the
sequence are dropped); and every newly introduced timestamp carries the
missing-value row. -/
theorem claim_C6_amended (f : NWISFrame) (n : ℕ) (s e : ℤ)
    (hs : f.metadict.start_date = .int s) (he : f.metadict.end_date = .int e)
    (hnd : f.keys.Nodup) :
    (fill_gaps f (some n)).keys = dateRange s e n ∧
    (∀ t r, (t, r) ∈ f.data → t ∈ dateRange s e n →
        (t, r) ∈ (fill_gaps f (some n)).data) ∧
    (∀ t, t ∈ dateRange s e n → t ∉ f.keys →
        (t, emptyRow) ∈ (fill_gaps f (some n)).data) := by
  rw [fill_gaps_step_eq f n s e hs he hnd]
  refine ⟨?_, ?_, ?_⟩
  · unfold keys reindexData
    rw [List.map_map]
    exact List.map_id _
  · intro t r hmem ht
    unfold reindexData
    refine List.mem_map.mpr ⟨t, ht, ?_⟩
    rw [find_eq_of_mem hnd hmem]
    rfl
  · intro t ht hkeys
    unfold reindexData
    refine List.mem_map.mpr ⟨t, ht, ?_⟩
    rw [find_eq_none_of_not_mem hkeys]
    rfl

/-- C6 witness: filling the gapped example frame at tolerance 1 yields the
full index 0..2, keeps the stored rows at 0 and 2, and inserts a missing
row at tick 1. -/
theorem claim_C6_witness :
    (fill_gaps exGap (some 1)).keys = dateRange 0 2 1 ∧
    ((0 : ℤ), ({ value := some 3, qualifiers := some ["P"] } : Row)) ∈
      (fill_gaps exGap (some 1)).data ∧
    ((2 : ℤ), ({ value := some 5, qualifiers := some ["P", "Ice"] } : Row)) ∈
      (fill_gaps exGap (some 1)).data ∧
    ((1 : ℤ), emptyRow) ∈ (fill_gaps exGap (some 1)).data :=
  ⟨(claim_C6_amended exGap 1 0 2 (by decide) (by decide) (by decide)).1,
   (claim_C6_amended exGap 1 0 2 (by decide) (by decide) (by decide)).2.1 0
     { value := some 3, qualifiers := some ["P"] } (by decide) (by decide),
   (claim_C6_amended exGap 1 0 2 (by decide) (by decide) (by decide)).2.1 2
     { value := some 5, qualifiers := some ["P", "Ice"] } (by decide) (by decide),
   (claim_C6_amended exGap 1 0 2 (by decide) (by decide) (by decide)).2.2 1
     (by decide) (by decide)⟩

/-- C7: `check_gaps` (called on the whole series, no sub-window) is
three-valued: when no gap tolerance resolves (none configured, none
supplied) it returns the Unknown sentinel and emits a warning, never
silently defaulting; otherwise it returns `True` exactly when `gap_index`
at the resolved tolerance is non-empty and `False` when it is empty. -/
theorem claim_C7_check_gaps (f : NWISFrame) (gap_tol : Option ℕ) :
    (resolve_gaptolerance f.metadict.gap_tolerance gap_tol = .unknown →
      check_gaps_full f gap_tol none = (.unknown, true)) ∧
    (∀ n gi, resolve_gaptolerance f.metadict.gap_tolerance gap_tol = .step n →
      gap_index f (some n) = some gi →
      check_gaps f gap_tol none =
        (if gi.isEmpty then GapCheck.no else GapCheck.yes)) := by
  constructor
  · intro h
    unfold check_gaps_full
    rw [h]
  · intro n gi hres hgi
    unfold check_gaps check_gaps_full
    rw [hres]
    simp only [hgi]
    by_cases hemp : gi.isEmpty = true
    · simp [hemp]
    · simp [hemp]

/-- C7 witness: with no tolerance ever configured `check_gaps` returns the
Unknown sentinel and warns; with a resolvable tolerance it returns `False`
on the gap-free example and `True` on the gapped one. -/
theorem claim_C7_witness :
    check_gaps_full exNoTol none none = (GapCheck.unknown, true) ∧
    check_gaps exFrameA (some 1) none = GapCheck.no ∧
    check_gaps exGap (some 1) none = GapCheck.yes := by
  refine ⟨(claim_C7_check_gaps exNoTol none).1 (by decide), ?_, ?_⟩
  · have h := (claim_C7_check_gaps exFrameA (some 1)).2 1 [] (by decide) (by decide)
    simpa using h
  · have h := (claim_C7_check_gaps exGap (some 1)).2 1 [1] (by decide) (by decide)
    simpa using h

/-- C8: when no gap tolerance can be resolved, `fill_gaps` does not raise:
it warns and returns the input series unchanged, while `check_gaps` in the
same situation returns the explicit Unknown sentinel — the intended
asymmetry between the two. -/
theorem claim_C8_fill_gaps_degrade (f : NWISFrame) (gap_tol : Option ℕ)
    (h : resolve_gaptolerance f.metadict.gap_tolerance gap_tol = .unknown) :
    fill_gaps f gap_tol = f ∧
    fill_gaps_warned f gap_tol = true ∧
    check_gaps f gap_tol none = GapCheck.unknown := by
  unfold fill_gaps fill_gaps_warned fill_gaps_full check_gaps check_gaps_full
  rw [h]
  exact ⟨rfl, rfl, rfl⟩

/-- C8 witness: on the frame with no configured tolerance and no argument,
`fill_gaps` returns its input unchanged with a warning and `check_gaps`
returns Unknown. -/
theorem claim_C8_witness :
    fill_gaps exNoTol none = exNoTol ∧
    fill_gaps_warned exNoTol none = true ∧
    check_gaps exNoTol none none = GapCheck.unknown :=
  claim_C8_fill_gaps_degrade exNoTol none (by decide)

/-- With no explicit argument, a tolerance can only resolve to `.step` if it
was stored as such. -/
lemma resolve_none_eq_step {stored : GapTol} {n : ℕ}
    (h : resolve_gaptolerance stored none = .step n) : stored = .step n := by
  unfold resolve_gaptolerance at h
  by_cases hp : stored = .pynone
  · rw [if_pos hp] at h
    cases h
  · rwa [if_neg hp] at h

/-- The metadata record of a `fill_gaps` result is the input record with at
most the `_gap_tolerance` entry rewritten. -/
lemma fill_gaps_metadict_eta (f : NWISFrame) (gap_tol : Option ℕ) :
    ∃ g : GapTol,
      (fill_gaps f gap_tol).metadict = { f.metadict with gap_tolerance := g } := by
  unfold fill_gaps fill_gaps_full
  repeat' split
  all_goals exact ⟨_, rfl⟩

/-- Calling `fill_gaps` with no explicit tolerance preserves the metadata record
exactly: either it falls back on the stored tolerance (rewriting
`_gap_tolerance` to its own value) or it degrades to a warning no-op. -/
lemma fill_gaps_none_metadict (f : NWISFrame) :
    (fill_gaps f none).metadict = f.metadict := by
  unfold fill_gaps fill_gaps_full
  split
  · rename_i n hres
    have hst : f.metadict.gap_tolerance = .step n := resolve_none_eq_step hres
    split
    · split
      · rw [← hst]
      · rfl
    · rfl
  · rfl

/-- C1: every derived view of the row table retains the original metadata
record: a label slice and a copy keep `_metadict` identically; `fill_gaps`
with no explicit tolerance keeps it identically, and `fill_gaps` in general
keeps every metadata entry — station id, start/end date, parameter,
statistic code, service, access level, url, site name, coordinates,
variable description — except the `_gap_tolerance` entry it deliberately
records; nothing is dropped or reset to defaults. -/
theorem claim_C1_metadata_survives (f : NWISFrame) (lo hi : ℤ)
    (gap_tol : Option ℕ) :
    (sliceFrame f lo hi).metadict = f.metadict ∧
    (copyFrame f).metadict = f.metadict ∧
    (fill_gaps f none).metadict = f.metadict ∧
    (fill_gaps f gap_tol).metadict.staid = f.metadict.staid ∧
    (fill_gaps f gap_tol).metadict.start_date = f.metadict.start_date ∧
    (fill_gaps f gap_tol).metadict.end_date = f.metadict.end_date ∧
    (fill_gaps f gap_tol).metadict.param = f.metadict.param ∧
    (fill_gaps f gap_tol).metadict.stat_code = f.metadict.stat_code ∧
    (fill_gaps f gap_tol).metadict.service = f.metadict.service ∧
    (fill_gaps f gap_tol).metadict.access_level = f.metadict.access_level ∧
    (fill_gaps f gap_tol).metadict.url = f.metadict.url ∧
    (fill_gaps f gap_tol).metadict.site_name = f.metadict.site_name ∧
    (fill_gaps f gap_tol).metadict.coords = f.metadict.coords ∧
    (fill_gaps f gap_tol).metadict.var_description = f.metadict.var_description := by
  obtain ⟨g, hg⟩ := fill_gaps_metadict_eta f gap_tol
  refine ⟨rfl, rfl, fill_gaps_none_metadict f, ?_⟩
  rw [hg]
  exact ⟨rfl, rfl, rfl, rfl, rfl, rfl, rfl, rfl, rfl, rfl, rfl⟩

/-- Concrete query parameters for the URL builder examples. -/
def exParams : QueryParams :=
  { staid := "12301933", start_date := "2023-01-03", end_date := "2023-01-04",
    param := "63680", stat_code := "00003", access := "0" }

/-- C9 counterexample: requesting the invalid service `"xv"` makes
`build_url` fail with the builtin `KeyError` of the `service_urls`
dictionary lookup — not with an `InvalidServiceError`, a class the claim
names but that is defined nowhere in the repository. -/
theorem claim_C9_counterexample :
    build_url exParams "xv" = Except.error (PyErr.keyError "xv") := by
  rfl

/-- C9 (amended): for every service outside `{"iv", "dv"}`, the `get_nwis`
pipeline fails with the builtin `KeyError` (carrying the bad service key)
during URL construction — before any network call is attempted (the result
does not depend on the fetch step) and processing stops (nor on any later
step). -/
theorem claim_C9_invalid_service {α β : Type} (fetch : String → Except PyErr α)
    (rest : α → Except PyErr β) (p : QueryParams) (service : String)
    (hiv : service ≠ "iv") (hdv : service ≠ "dv") :
    get_nwis_run fetch rest p service = Except.error (PyErr.keyError service) := by
  unfold get_nwis_run build_url
  rw [if_neg hdv, if_neg hiv]
  rfl

/-- C9 witness: the service `"xv"` fails with `KeyError "xv"` whatever the
fetch and processing steps would do. -/
theorem claim_C9_witness :
    get_nwis_run (fun _ => Except.ok ()) (fun _ => Except.ok ()) exParams "xv" =
      Except.error (PyErr.keyError "xv") :=
  claim_C9_invalid_service (fun _ => Except.ok ()) (fun _ => Except.ok ())
    exParams "xv" (by decide) (by decide)
